import Mathlib

/-!
Verification of the Bluetooth event-loop layer
(`core/jni/android_server_BluetoothEventLoop.cpp`).

The development shallowly embeds the watch multiplexer (the poll/watch
arrays mutated by `handleWatchAdd` / `handleWatchRemove`), the watch hooks
(`dbusAddWatch` / `dbusRemoveWatch` / `dbusToggleWatch`), the lifecycle
entry point `startEventLoopNative`, the agent method-call responder
`agent_event_filter`, the `AdapterPropertyChanged` branch of
`event_filter`, and the two asynchronous completion callbacks
`onCreatePairedDeviceResult` / `onGetDeviceServiceChannelResult`.

External collaborators (the D-Bus library, JNI) appear as explicit inputs:
allocation outcomes are boolean parameters, bus messages are inductive
values, application callbacks and outbound replies are recorded in the
returned structures instead of being performed as side effects.
-/

/-! ## Constants

`BOND_RESULT_*` are the defines at lines 886-892 of the source.  The
remaining constants come from headers that accompany the file
(`<dbus/dbus.h>`, `<poll.h>`, `android_bluetooth_common.h`); their exact
values are the standard ones and none of the proofs depend on them beyond
the consistency of their use inside the embedded functions. -/

def BOND_RESULT_ERROR : Int := -1000

def BOND_RESULT_SUCCESS : Int := 0

def BOND_RESULT_AUTH_FAILED : Int := 1

def BOND_RESULT_AUTH_REJECTED : Int := 2

def BOND_RESULT_AUTH_CANCELED : Int := 3

def BOND_RESULT_REMOTE_DEVICE_DOWN : Int := 4

def BOND_RESULT_DISCOVERY_IN_PROGRESS : Int := 5

/-- Modelled from the spec: the daemon's bus namespace constant
`BLUEZ_DBUS_BASE_IFC` from the missing common header; the source pairs it
with the literal interface strings `"org.bluez.Adapter"` etc. -/
def BLUEZ_DBUS_BASE_IFC : String := "org.bluez"

def DBUS_WATCH_READABLE : Nat := 1

def DBUS_WATCH_WRITABLE : Nat := 2

def POLLIN : Nat := 1

def POLLOUT : Nat := 4

/-- Modelled from the spec: the initial Watch Set capacity from the missing
common header; the claims do not depend on its value. -/
def DEFAULT_INITIAL_POLLFD_COUNT : Nat := 8

/-! ## Bus message arguments

Arguments of a decoded bus message, as far as the embedded handlers
inspect them (`DBUS_TYPE_INT32`, `DBUS_TYPE_STRING`,
`DBUS_TYPE_OBJECT_PATH`). -/

inductive BusArg where
  | int32 (n : Int)
  | str (s : String)
  | objPath (s : String)
deriving DecidableEq, Repr

/-- Modelled from the spec: the bus library's decode-message-arguments
operation for the signature `(DBUS_TYPE_INT32, DBUS_TYPE_INVALID)` —
succeeds exactly when the reply carries a single 32-bit integer
argument. -/
def getArgsInt32 : List BusArg → Option Int
  | [BusArg.int32 n] => some n
  | _ => none

/-- Modelled from the spec: decode-message-arguments for the signature
`(DBUS_TYPE_OBJECT_PATH, DBUS_TYPE_STRING, DBUS_TYPE_INVALID)` used by the
`Authorize` method. -/
def getArgsObjectPathString : List BusArg → Option (String × String)
  | [BusArg.objPath p, BusArg.str u] => some (p, u)
  | _ => none

/-- Modelled from the spec: decode-message-arguments for the signature
`(DBUS_TYPE_OBJECT_PATH, DBUS_TYPE_INVALID)` used by `RequestPinCode`. -/
def getArgsObjectPath : List BusArg → Option String
  | [BusArg.objPath p] => some p
  | _ => none

/-! ## onCreatePairedDeviceResult (lines 894-951) -/

/-- A completion message delivered to a pending-call callback: either a
normal reply or an error reply carrying an error name and message
(`dbus_set_error_from_message`). -/
inductive PairedReply where
  | success
  | error (name message : String)
deriving DecidableEq, Repr

/-- Outcome of one completion callback: the value handed to the Java
callback (`none` when the callback is suppressed) and how many times
`free(user)` ran. -/
structure PairedOutcome where
  callback : Option Int
  frees : Nat
deriving DecidableEq, Repr

/-- The error-name match chain of `onCreatePairedDeviceResult`
(lines 907-942); `none` is the `goto done` that skips the callback. -/
def createPairedDeviceResultCode (name message : String) : Option Int :=
  if name = BLUEZ_DBUS_BASE_IFC ++ ".Error.AuthenticationFailed" then
    some BOND_RESULT_AUTH_FAILED
  else if name = BLUEZ_DBUS_BASE_IFC ++ ".Error.AuthenticationRejected" then
    some BOND_RESULT_AUTH_REJECTED
  else if name = BLUEZ_DBUS_BASE_IFC ++ ".Error.AuthenticationCanceled" then
    some BOND_RESULT_AUTH_CANCELED
  else if name = BLUEZ_DBUS_BASE_IFC ++ ".Error.ConnectionAttemptFailed" then
    some BOND_RESULT_REMOTE_DEVICE_DOWN
  else if name = BLUEZ_DBUS_BASE_IFC ++ ".Error.AlreadyExists" then
    some BOND_RESULT_SUCCESS
  else if name = BLUEZ_DBUS_BASE_IFC ++ ".Error.InProgress" ∧
      message = "Bonding in progress" then
    none
  else if name = BLUEZ_DBUS_BASE_IFC ++ ".Error.InProgress" ∧
      message = "Discover in progress" then
    some BOND_RESULT_DISCOVERY_IN_PROGRESS
  else
    some BOND_RESULT_ERROR

/-- `onCreatePairedDeviceResult` (lines 894-951): a non-error reply reports
`BOND_RESULT_SUCCESS`; an error reply goes through the match chain; every
path falls through to `done:` which frees the context exactly once. -/
def onCreatePairedDeviceResult (msg : PairedReply) : PairedOutcome :=
  match msg with
  | PairedReply.success => { callback := some BOND_RESULT_SUCCESS, frees := 1 }
  | PairedReply.error name message =>
      { callback := createPairedDeviceResultCode name message, frees := 1 }

/-! ## onGetDeviceServiceChannelResult (lines 953-982) -/

/-- A completion message for the service-channel call. -/
inductive ChannelReply where
  | reply (args : List BusArg)
  | error (name message : String)
deriving DecidableEq, Repr

/-- Outcome of the service-channel callback: the list of channel values
handed to the Java callback (the list records how often the callback
fires) and how many times `free(user)` ran. -/
structure ChannelOutcome where
  callbackChannels : List Int
  frees : Nat
deriving DecidableEq, Repr

/-- `onGetDeviceServiceChannelResult` (lines 953-982): `channel` starts at
`-2`; a successful single-int32 decode overwrites it; the code falls
through the `done:` label, so the callback fires and the context is freed
on every path. -/
def onGetDeviceServiceChannelResult (msg : ChannelReply) : ChannelOutcome :=
  match msg with
  | ChannelReply.error _ _ => { callbackChannels := [-2], frees := 1 }
  | ChannelReply.reply args =>
      match getArgsInt32 args with
      | some c => { callbackChannels := [c], frees := 1 }
      | none => { callbackChannels := [-2], frees := 1 }

/-! ## agent_event_filter (lines 781-880) -/

inductive MsgType where
  | methodCall
  | signal
  | methodReturn
  | errorMsg
deriving DecidableEq, Repr

/-- An inbound bus message as the agent responder inspects it. -/
structure AgentMessage where
  mtype : MsgType
  iface : String
  member : String
  args : List BusArg
deriving DecidableEq, Repr

/-- `dbus_message_is_method_call`: type, interface and member must all
match. -/
def dbus_message_is_method_call (msg : AgentMessage) (iface member : String) : Bool :=
  msg.mtype == MsgType.methodCall && msg.iface == iface && msg.member == member

/-- An application callback invoked by the agent responder. -/
inductive AgentCall where
  | onAgentCancel
  | onAgentAuthorize (objectPath uuid : String)
  | onRequestPinCode (objectPath : String)
deriving DecidableEq, Repr

/-- An outbound reply sent on the connection by the agent responder. -/
inductive OutReply where
  | methodReturn
  | errorReply (name message : String)
deriving DecidableEq, Repr

/-- Result of one `agent_event_filter` invocation: the handled/not-handled
indication, the replies sent on the connection, and the application
callbacks invoked. -/
structure AgentFilterResult where
  handled : Bool
  replies : List OutReply
  callbacks : List AgentCall
deriving DecidableEq, Repr

/-- `agent_event_filter` (lines 781-880).  `natNull` is whether the
native-data pointer passed by the bus library is `NULL`; `authorize` is
the application's `onAgentAuthorize` decision; `allocOk` is whether
`dbus_message_new_method_return` / `dbus_message_new_error` succeeds. -/
def agent_event_filter (natNull : Bool) (authorize : String → String → Bool)
    (allocOk : Bool) (msg : AgentMessage) : AgentFilterResult :=
  if msg.mtype ≠ MsgType.methodCall then
    { handled := false, replies := [], callbacks := [] }
  else if natNull then
    { handled := true, replies := [], callbacks := [] }
  else if dbus_message_is_method_call msg "org.bluez.Agent" "Cancel" then
    if allocOk then
      { handled := true, replies := [OutReply.methodReturn],
        callbacks := [AgentCall.onAgentCancel] }
    else
      { handled := false, replies := [], callbacks := [AgentCall.onAgentCancel] }
  else if dbus_message_is_method_call msg "org.bluez.Agent" "Authorize" then
    match getArgsObjectPathString msg.args with
    | none => { handled := false, replies := [], callbacks := [] }
    | some (p, u) =>
        if authorize p u then
          if allocOk then
            { handled := true, replies := [OutReply.methodReturn],
              callbacks := [AgentCall.onAgentAuthorize p u] }
          else
            { handled := false, replies := [],
              callbacks := [AgentCall.onAgentAuthorize p u] }
        else
          if allocOk then
            { handled := true,
              replies := [OutReply.errorReply "org.bluez.Error.Rejected"
                "Authorization rejected"],
              callbacks := [AgentCall.onAgentAuthorize p u] }
          else
            { handled := false, replies := [],
              callbacks := [AgentCall.onAgentAuthorize p u] }
  else if dbus_message_is_method_call msg "org.bluez.Agent" "RequestPinCode" then
    match getArgsObjectPath msg.args with
    | none => { handled := false, replies := [], callbacks := [] }
    | some p =>
        { handled := true, replies := [],
          callbacks := [AgentCall.onRequestPinCode p] }
  else if dbus_message_is_method_call msg "org.bluez.Agent" "Release" then
    if allocOk then
      { handled := true, replies := [OutReply.methodReturn], callbacks := [] }
    else
      { handled := false, replies := [], callbacks := [] }
  else
    { handled := false, replies := [], callbacks := [] }

/-! ## AdapterPropertyChanged branch of event_filter (lines 740-762) -/

/-- The comparison `!strncmp(s, pat, strlen(pat))` performed by the source:
true exactly when the first `strlen(pat)` characters of `s` equal `pat`,
i.e. `pat` is a leading segment of `s`. -/
def strncmpZero (s pat : String) : Bool :=
  s.toList.take pat.toList.length == pat.toList

/-- Outcome of the `AdapterPropertyChanged` branch: whether the cached
adapter path was refreshed, the resulting cached path, whether the Java
callback fired, and the handled indication. -/
structure AdapterPropOutcome where
  refreshed : Bool
  adapter : Option String
  callbackInvoked : Bool
  handled : Bool
deriving DecidableEq, Repr

/-- Lines 740-762 of `event_filter`: `strArray` is the result of the
external `parse_adapter_property_change` (`none` models a `NULL` array),
`adapter` the cached adapter path, `lookupResult` what the synchronous
`get_adapter_path` lookup would return.  Element 0 is the property name,
element 1 its value; both are compared by `strncmp` against `"Powered"`
and `"true"`. -/
def handleAdapterPropertyChanged (strArray : Option (List String))
    (adapter lookupResult : Option String) : AdapterPropOutcome :=
  match strArray with
  | none => { refreshed := false, adapter := adapter,
              callbackInvoked := false, handled := true }
  | some arr =>
      if strncmpZero (arr.getD 0 "") "Powered" then
        if strncmpZero (arr.getD 1 "") "true" then
          { refreshed := true, adapter := lookupResult,
            callbackInvoked := true, handled := true }
        else
          { refreshed := false, adapter := adapter,
            callbackInvoked := true, handled := true }
      else
        { refreshed := false, adapter := adapter,
          callbackInvoked := true, handled := true }

/-! ## Watch hooks (lines 360-401) -/

/-- A `DBusWatch` as the hooks query it: its enabled state
(`dbus_watch_get_enabled`), descriptor (`dbus_watch_get_fd`), interest
flags (`dbus_watch_get_flags`) and the pointer identity of the watch,
modelled as a number. -/
structure DBusWatch where
  enabled : Bool
  fd : Int
  flags : Nat
  handle : Nat
deriving DecidableEq, Repr

/-- A control message crossing the Control Channel; the byte-level framing
(tag byte, then the fixed-size fields) is collapsed to one tagged
value. -/
inductive ControlMessage where
  | exit
  | addWatch (fd : Int) (flags : Nat) (handle : Nat)
  | removeWatch (fd : Int) (flags : Nat)
deriving DecidableEq, Repr

/-- `dbusAddWatch` (lines 360-380): sends an `EVENT_LOOP_ADD` message only
for an enabled watch, and returns `true` in both cases. -/
def dbusAddWatch (w : DBusWatch) : List ControlMessage × Bool :=
  if w.enabled then
    ([ControlMessage.addWatch w.fd w.flags w.handle], true)
  else
    ([], true)

/-- `dbusRemoveWatch` (lines 382-393): always sends an
`EVENT_LOOP_REMOVE` message. -/
def dbusRemoveWatch (w : DBusWatch) : List ControlMessage :=
  [ControlMessage.removeWatch w.fd w.flags]

/-- `dbusToggleWatch` (lines 395-401): routes on the enabled state. -/
def dbusToggleWatch (w : DBusWatch) : List ControlMessage :=
  if w.enabled then (dbusAddWatch w).1 else dbusRemoveWatch w

/-! ## The Watch Set (lines 403-472) -/

/-- One `struct pollfd`. -/
structure PollFd where
  fd : Int
  events : Nat
  revents : Nat
deriving DecidableEq, Repr

/-- The Watch Set storage inside `event_loop_native_data_t`: the two
parallel buffers, their live-member count, and the tracked capacity.  The
buffers are lists whose length is the allocated capacity; only the first
`pollMemberCount` slots are live. -/
structure WatchState where
  pollData : List PollFd
  watchData : List Nat
  pollMemberCount : Nat
  pollDataSize : Nat
deriving DecidableEq, Repr

/-- The memory-safety facts the C code relies on: the live count is within
the tracked capacity and both buffers hold at least that capacity. -/
def WatchState.WF (s : WatchState) : Prop :=
  s.pollMemberCount ≤ s.pollDataSize ∧
  s.pollDataSize ≤ s.pollData.length ∧
  s.pollDataSize ≤ s.watchData.length

instance (s : WatchState) : Decidable s.WF := by
  unfold WatchState.WF
  infer_instance

/-- The translation from interest flags to poll events performed at the
top of both handlers (lines 411-412 and 456-457). -/
def watchFlagsToEvents (flags : Nat) : Nat :=
  (if flags &&& DBUS_WATCH_READABLE ≠ 0 then POLLIN else 0) |||
  (if flags &&& DBUS_WATCH_WRITABLE ≠ 0 then POLLOUT else 0)

/-- The live prefix of the Watch Set projected to its (descriptor, poll
events) pairs. -/
def livePairs (s : WatchState) : List (Int × Nat) :=
  (s.pollData.take s.pollMemberCount).map (fun p => (p.fd, p.events))

/-- The live prefix of the Watch Set, pairing each live `pollfd` with its
watch handle. -/
def liveEntries (s : WatchState) : List (PollFd × Nat) :=
  (s.pollData.take s.pollMemberCount).zip (s.watchData.take s.pollMemberCount)

/-- The scan loop shared by both handlers: the index of the first entry
whose descriptor and events match. -/
def findMatch (fd : Int) (ev : Nat) : List PollFd → Option Nat
  | [] => none
  | p :: ps =>
      if p.fd = fd ∧ p.events = ev then some 0
      else (findMatch fd ev ps).map (· + 1)

/-- The final five lines of `handleWatchAdd` (lines 443-447): write the
new entry at index `pollMemberCount` of both buffers and bump the
count. -/
def appendWatchEntry (s : WatchState) (newFD : Int) (events : Nat)
    (watch : Nat) : WatchState :=
  { s with
    pollData := s.pollData.set s.pollMemberCount
      { fd := newFD, events := events, revents := 0 },
    watchData := s.watchData.set s.pollMemberCount watch,
    pollMemberCount := s.pollMemberCount + 1 }

/-- `handleWatchAdd` (lines 403-448).  `alloc1` / `alloc2` are the
outcomes of the two `malloc` calls in the growth path; a failed allocation
returns early.  After a successful first allocation the old `pollData`
buffer is already replaced by the copy with one fresh slot (the fresh
slot's contents are unspecified in C and written as zeros here; it lies
beyond the live prefix unless the add completes and overwrites it). -/
def handleWatchAdd (alloc1 alloc2 : Bool) (newFD : Int) (flags : Nat)
    (watch : Nat) (s : WatchState) : WatchState :=
  let events := watchFlagsToEvents flags
  if (findMatch newFD events (s.pollData.take s.pollMemberCount)).isSome then
    s
  else if s.pollMemberCount = s.pollDataSize then
    if alloc1 = false then s
    else
      let s1 := { s with
        pollData := s.pollData.take s.pollMemberCount ++
          [{ fd := 0, events := 0, revents := 0 }] }
      if alloc2 = false then s1
      else
        let s2 := { s1 with
          watchData := s1.watchData.take s1.pollMemberCount ++ [0],
          pollDataSize := s1.pollDataSize + 1 }
        appendWatchEntry s2 newFD events watch
  else
    appendWatchEntry s newFD events watch

/-- `handleWatchRemove` (lines 450-472): find the first live entry with
matching descriptor and events, copy the last live entry over it and
decrement the count; an unmatched request only logs a warning (the
returned boolean). -/
def handleWatchRemove (removeFD : Int) (flags : Nat) (s : WatchState) :
    WatchState × Bool :=
  let events := watchFlagsToEvents flags
  match findMatch removeFD events (s.pollData.take s.pollMemberCount) with
  | some y =>
      let newCount := s.pollMemberCount - 1
      let lastP := s.pollData.getD newCount { fd := 0, events := 0, revents := 0 }
      let lastW := s.watchData.getD newCount 0
      ({ s with
          pollData := s.pollData.set y lastP,
          watchData := s.watchData.set y lastW,
          pollMemberCount := newCount }, false)
  | none => (s, true)

/-- A watch mutation drained from the Control Channel by the worker loop
(lines 508-517), with the allocation outcomes an add may need. -/
inductive WatchMutation where
  | add (alloc1 alloc2 : Bool) (fd : Int) (flags : Nat) (handle : Nat)
  | remove (fd : Int) (flags : Nat)
deriving DecidableEq, Repr

def applyWatchMutation (s : WatchState) : WatchMutation → WatchState
  | WatchMutation.add a1 a2 fd flags h => handleWatchAdd a1 a2 fd flags h s
  | WatchMutation.remove fd flags => (handleWatchRemove fd flags s).1

def applyWatchMutations (s : WatchState) (ms : List WatchMutation) : WatchState :=
  ms.foldl applyWatchMutation s

/-! ## startEventLoopNative (lines 539-613) -/

/-- The loop-owned fields of `event_loop_native_data_t` that
`startEventLoopNative` touches.  `pollData = none` models the `NULL`
pointer that marks the idle state. -/
structure LoopState where
  pollData : Option (List PollFd)
  watchData : Option (List Nat)
  pollDataSize : Nat
  pollMemberCount : Nat
  controlFdR : Int
  controlFdW : Int
  hasGlobalRef : Bool
  threadRunning : Bool
deriving DecidableEq, Repr

/-- Environment outcomes consumed by `startEventLoopNative`: the two
`malloc` results, the `socketpair` result and the descriptors it yields,
and the `setUpEventLoop` result. -/
structure StartEnv where
  allocPollOk : Bool
  allocWatchOk : Bool
  socketpairOk : Bool
  fdR : Int
  fdW : Int
  setUpOk : Bool
deriving DecidableEq, Repr

/-- The `done:` cleanup block (lines 593-608), executed when the start
failed. -/
def startCleanup (s : LoopState) : LoopState :=
  let s1 := if s.controlFdW ≠ 0 ∨ s.controlFdR ≠ 0 then
      { s with controlFdW := 0, controlFdR := 0 }
    else s
  { s1 with
    hasGlobalRef := false,
    pollData := none,
    watchData := none,
    pollDataSize := 0,
    pollMemberCount := 0 }

/-- What one `startEventLoopNative` call produces: the JNI boolean result,
the state left behind, and whether the "trying to start EventLoop a second
time!" warning was logged. -/
structure StartResult where
  result : Bool
  state : LoopState
  warnedSecondStart : Bool
deriving DecidableEq, Repr

/-- `startEventLoopNative` (lines 539-613).  The whole body runs under
`thread_mutex`; a non-`NULL` `pollData` is rejected up front, otherwise
the resources are acquired in order with `goto done` on failure. -/
def startEventLoopNative (env : StartEnv) (s : LoopState) : StartResult :=
  if s.pollData.isSome then
    { result := false, state := s, warnedSecondStart := true }
  else if env.allocPollOk = false then
    { result := false, state := startCleanup s, warnedSecondStart := false }
  else
    let s1 := { s with
      pollData := some (List.replicate DEFAULT_INITIAL_POLLFD_COUNT
        { fd := 0, events := 0, revents := 0 }) }
    if env.allocWatchOk = false then
      { result := false, state := startCleanup s1, warnedSecondStart := false }
    else
      let s2 := { s1 with
        watchData := some (List.replicate DEFAULT_INITIAL_POLLFD_COUNT 0),
        pollDataSize := DEFAULT_INITIAL_POLLFD_COUNT,
        pollMemberCount := 1 }
      if env.socketpairOk = false then
        { result := false, state := startCleanup s2, warnedSecondStart := false }
      else
        let s3 := { s2 with
          controlFdR := env.fdR, controlFdW := env.fdW,
          pollData := some ((s2.pollData.getD []).set 0
            { fd := env.fdR, events := POLLIN, revents := 0 }) }
        let s4 := { s3 with hasGlobalRef := true }
        if env.setUpOk = false then
          { result := false, state := startCleanup s4, warnedSecondStart := false }
        else
          { result := true, state := { s4 with threadRunning := true },
            warnedSecondStart := false }

/-! ## Concrete states used by the witnesses -/

/-- A small well-formed Watch Set: one live entry, capacity two. -/
def demoWatchState : WatchState :=
  { pollData := [{ fd := 3, events := 1, revents := 0 },
                 { fd := 0, events := 0, revents := 0 }],
    watchData := [7, 0],
    pollMemberCount := 1,
    pollDataSize := 2 }

/-- A Watch Set at full capacity, as the growth path requires. -/
def fullWatchState : WatchState :=
  { pollData := [{ fd := 3, events := 1, revents := 0 }],
    watchData := [7],
    pollMemberCount := 1,
    pollDataSize := 1 }

/-- A loop state in the running state (`pollData` non-`NULL`). -/
def runningLoopState : LoopState :=
  { pollData := some [{ fd := 10, events := 1, revents := 0 }],
    watchData := some [0],
    pollDataSize := 1,
    pollMemberCount := 1,
    controlFdR := 10,
    controlFdW := 11,
    hasGlobalRef := true,
    threadRunning := true }

/-- An environment where every acquisition succeeds. -/
def okStartEnv : StartEnv :=
  { allocPollOk := true, allocWatchOk := true, socketpairOk := true,
    fdR := 10, fdW := 11, setUpOk := true }

/-! ## Theorems -/

/-- C2: every completion delivered to `onCreatePairedDeviceResult` maps a
non-error reply to SUCCESS; error replies map through the fixed table
(AuthenticationFailed→AUTH_FAILED, AuthenticationRejected→AUTH_REJECTED,
AuthenticationCanceled→AUTH_CANCELED, ConnectionAttemptFailed→
REMOTE_DEVICE_DOWN, AlreadyExists→SUCCESS, InProgress+"Discover in
progress"→DISCOVERY_IN_PROGRESS, anything else→ERROR); InProgress+"Bonding
in progress" suppresses the callback; and every path frees the context
exactly once. -/
theorem onCreatePairedDeviceResult_spec :
    (onCreatePairedDeviceResult PairedReply.success =
      { callback := some BOND_RESULT_SUCCESS, frees := 1 }) ∧
    (∀ m, onCreatePairedDeviceResult
        (PairedReply.error (BLUEZ_DBUS_BASE_IFC ++ ".Error.AuthenticationFailed") m) =
      { callback := some BOND_RESULT_AUTH_FAILED, frees := 1 }) ∧
    (∀ m, onCreatePairedDeviceResult
        (PairedReply.error (BLUEZ_DBUS_BASE_IFC ++ ".Error.AuthenticationRejected") m) =
      { callback := some BOND_RESULT_AUTH_REJECTED, frees := 1 }) ∧
    (∀ m, onCreatePairedDeviceResult
        (PairedReply.error (BLUEZ_DBUS_BASE_IFC ++ ".Error.AuthenticationCanceled") m) =
      { callback := some BOND_RESULT_AUTH_CANCELED, frees := 1 }) ∧
    (∀ m, onCreatePairedDeviceResult
        (PairedReply.error (BLUEZ_DBUS_BASE_IFC ++ ".Error.ConnectionAttemptFailed") m) =
      { callback := some BOND_RESULT_REMOTE_DEVICE_DOWN, frees := 1 }) ∧
    (∀ m, onCreatePairedDeviceResult
        (PairedReply.error (BLUEZ_DBUS_BASE_IFC ++ ".Error.AlreadyExists") m) =
      { callback := some BOND_RESULT_SUCCESS, frees := 1 }) ∧
    (onCreatePairedDeviceResult
        (PairedReply.error (BLUEZ_DBUS_BASE_IFC ++ ".Error.InProgress")
          "Bonding in progress") =
      { callback := none, frees := 1 }) ∧
    (onCreatePairedDeviceResult
        (PairedReply.error (BLUEZ_DBUS_BASE_IFC ++ ".Error.InProgress")
          "Discover in progress") =
      { callback := some BOND_RESULT_DISCOVERY_IN_PROGRESS, frees := 1 }) ∧
    (∀ name m,
      name ≠ BLUEZ_DBUS_BASE_IFC ++ ".Error.AuthenticationFailed" →
      name ≠ BLUEZ_DBUS_BASE_IFC ++ ".Error.AuthenticationRejected" →
      name ≠ BLUEZ_DBUS_BASE_IFC ++ ".Error.AuthenticationCanceled" →
      name ≠ BLUEZ_DBUS_BASE_IFC ++ ".Error.ConnectionAttemptFailed" →
      name ≠ BLUEZ_DBUS_BASE_IFC ++ ".Error.AlreadyExists" →
      (name = BLUEZ_DBUS_BASE_IFC ++ ".Error.InProgress" →
        m ≠ "Bonding in progress" ∧ m ≠ "Discover in progress") →
      onCreatePairedDeviceResult (PairedReply.error name m) =
        { callback := some BOND_RESULT_ERROR, frees := 1 }) ∧
    (∀ msg, (onCreatePairedDeviceResult msg).frees = 1) := by
  refine ⟨rfl, fun m => rfl, fun m => rfl, fun m => rfl, fun m => rfl, fun m => rfl,
    rfl, rfl, ?_, ?_⟩
  · intro name m h1 h2 h3 h4 h5 h6
    have hb : ¬(name = BLUEZ_DBUS_BASE_IFC ++ ".Error.InProgress" ∧
        m = "Bonding in progress") := fun h => (h6 h.1).1 h.2
    have hd : ¬(name = BLUEZ_DBUS_BASE_IFC ++ ".Error.InProgress" ∧
        m = "Discover in progress") := fun h => (h6 h.1).2 h.2
    simp only [onCreatePairedDeviceResult, createPairedDeviceResultCode]
    rw [if_neg h1, if_neg h2, if_neg h3, if_neg h4, if_neg h5, if_neg hb, if_neg hd]
  · intro msg
    cases msg with
    | success => rfl
    | error name m => rfl

/-- C2 witness: an unrecognized error name yields the generic error
code. -/
theorem onCreatePairedDeviceResult_spec_witness :
    onCreatePairedDeviceResult (PairedReply.error "org.bluez.Error.Timeout" "x") =
      { callback := some BOND_RESULT_ERROR, frees := 1 } :=
  onCreatePairedDeviceResult_spec.2.2.2.2.2.2.2.2.1 "org.bluez.Error.Timeout" "x"
    (by decide) (by decide) (by decide) (by decide) (by decide) (by decide)

/-- C3: the service-channel callback fires exactly once on every
completion — with the decoded integer on a successful single-int32
decode, with `-2` on an error reply or a decode failure — and the context
is freed exactly once on every path. -/
theorem onGetDeviceServiceChannelResult_spec :
    (∀ msg, (onGetDeviceServiceChannelResult msg).callbackChannels.length = 1 ∧
        (onGetDeviceServiceChannelResult msg).frees = 1) ∧
    (∀ name m, onGetDeviceServiceChannelResult (ChannelReply.error name m) =
        { callbackChannels := [-2], frees := 1 }) ∧
    (∀ args n, getArgsInt32 args = some n →
        onGetDeviceServiceChannelResult (ChannelReply.reply args) =
          { callbackChannels := [n], frees := 1 }) ∧
    (∀ args, getArgsInt32 args = none →
        onGetDeviceServiceChannelResult (ChannelReply.reply args) =
          { callbackChannels := [-2], frees := 1 }) := by
  refine ⟨?_, fun name m => rfl, ?_, ?_⟩
  · intro msg
    cases msg with
    | error name m => exact ⟨rfl, rfl⟩
    | reply args =>
        cases h : getArgsInt32 args <;>
          simp [onGetDeviceServiceChannelResult, h]
  · intro args n h
    simp [onGetDeviceServiceChannelResult, h]
  · intro args h
    simp [onGetDeviceServiceChannelResult, h]

/-- C3 witness: a reply carrying the single int32 argument 17 reports
channel 17 and frees the context once. -/
theorem onGetDeviceServiceChannelResult_spec_witness :
    onGetDeviceServiceChannelResult (ChannelReply.reply [BusArg.int32 17]) =
      { callbackChannels := [17], frees := 1 } :=
  onGetDeviceServiceChannelResult_spec.2.2.1 [BusArg.int32 17] 17 rfl

/-- C4: a well-formed `Authorize` method call (with the reply allocation
succeeding) sends exactly one reply — an empty method return when the
application authorizes, the fixed `org.bluez.Error.Rejected` /
"Authorization rejected" error reply when it refuses — and is reported as
handled in both cases. -/
theorem agent_authorize_reply_spec (authorize : String → String → Bool)
    (msg : AgentMessage) (p u : String)
    (hcall : dbus_message_is_method_call msg "org.bluez.Agent" "Authorize" = true)
    (hargs : getArgsObjectPathString msg.args = some (p, u)) :
    agent_event_filter false authorize true msg =
      (if authorize p u then
        { handled := true, replies := [OutReply.methodReturn],
          callbacks := [AgentCall.onAgentAuthorize p u] }
      else
        { handled := true,
          replies := [OutReply.errorReply "org.bluez.Error.Rejected"
            "Authorization rejected"],
          callbacks := [AgentCall.onAgentAuthorize p u] }) := by
  simp only [dbus_message_is_method_call, Bool.and_eq_true, beq_iff_eq] at hcall
  obtain ⟨⟨h1, h2⟩, h3⟩ := hcall
  cases hA : authorize p u <;>
    simp [agent_event_filter, dbus_message_is_method_call, h1, h2, h3, hargs, hA]

/-- C4 witness: a refused authorization produces the fixed rejection error
reply. -/
theorem agent_authorize_reply_spec_witness :
    agent_event_filter false (fun _ _ => false) true
      { mtype := MsgType.methodCall, iface := "org.bluez.Agent",
        member := "Authorize",
        args := [BusArg.objPath "/dev/x", BusArg.str "uuid-1"] } =
      { handled := true,
        replies := [OutReply.errorReply "org.bluez.Error.Rejected"
          "Authorization rejected"],
        callbacks := [AgentCall.onAgentAuthorize "/dev/x" "uuid-1"] } := by
  have h := agent_authorize_reply_spec (fun _ _ => false)
    { mtype := MsgType.methodCall, iface := "org.bluez.Agent",
      member := "Authorize",
      args := [BusArg.objPath "/dev/x", BusArg.str "uuid-1"] }
    "/dev/x" "uuid-1" (by decide) rfl
  simpa using h

/-- C10: a method-call message reaching `agent_event_filter` with a null
native-data pointer is reported handled with no application callback and
no outbound reply. -/
theorem agent_event_filter_null_data_spec (authorize : String → String → Bool)
    (allocOk : Bool) (msg : AgentMessage) (h : msg.mtype = MsgType.methodCall) :
    agent_event_filter true authorize allocOk msg =
      { handled := true, replies := [], callbacks := [] } := by
  simp [agent_event_filter, h]

/-- C10 witness. -/
theorem agent_event_filter_null_data_witness :
    agent_event_filter true (fun _ _ => true) true
      { mtype := MsgType.methodCall, iface := "org.bluez.Agent",
        member := "Cancel", args := [] } =
      { handled := true, replies := [], callbacks := [] } :=
  agent_event_filter_null_data_spec (fun _ _ => true) true
    { mtype := MsgType.methodCall, iface := "org.bluez.Agent",
      member := "Cancel", args := [] } rfl

/-- C5: a `startEventLoopNative` call on a running loop (non-null
`pollData`) fails, logs the second-start warning, and leaves the state —
running flag and all loop-owned resources — exactly unchanged; from the
idle state a successful start is the unique transition into the running
state. -/
theorem startEventLoopNative_second_start_spec (env : StartEnv) (s : LoopState)
    (h : s.pollData.isSome = true) :
    startEventLoopNative env s =
      { result := false, state := s, warnedSecondStart := true } ∧
    (∀ s₀ : LoopState, s₀.pollData = none →
      (startEventLoopNative env s₀).result = true →
      (startEventLoopNative env s₀).state.pollData.isSome = true ∧
      (startEventLoopNative env s₀).state.threadRunning = true) := by
  constructor
  · simp [startEventLoopNative, h]
  · intro s₀ h₀ hres
    by_cases e1 : env.allocPollOk = false
    · simp [startEventLoopNative, h₀, e1] at hres
    · by_cases e2 : env.allocWatchOk = false
      · simp [startEventLoopNative, h₀, e1, e2] at hres
      · by_cases e3 : env.socketpairOk = false
        · simp [startEventLoopNative, h₀, e1, e2, e3] at hres
        · by_cases e4 : env.setUpOk = false
          · simp [startEventLoopNative, h₀, e1, e2, e3, e4] at hres
          · simp [startEventLoopNative, h₀, e1, e2, e3, e4]

/-- C5 witness: starting the already-running demo loop is a rejected
no-op. -/
theorem startEventLoopNative_second_start_witness :
    startEventLoopNative okStartEnv runningLoopState =
      { result := false, state := runningLoopState, warnedSecondStart := true } :=
  (startEventLoopNative_second_start_spec okStartEnv runningLoopState rfl).1

/-- C8: the add hook emits an `AddWatch` control message exactly when the
watch is enabled (and returns true either way), the remove hook always
emits a `RemoveWatch` message, and the toggle hook routes to the add or
remove behavior by the enabled state. -/
theorem watch_hooks_routing_spec (w : DBusWatch) :
    ((dbusAddWatch w).1 =
      (if w.enabled then [ControlMessage.addWatch w.fd w.flags w.handle] else [])) ∧
    (dbusAddWatch w).2 = true ∧
    dbusRemoveWatch w = [ControlMessage.removeWatch w.fd w.flags] ∧
    dbusToggleWatch w =
      (if w.enabled then (dbusAddWatch w).1 else dbusRemoveWatch w) := by
  cases hw : w.enabled <;>
    simp [dbusAddWatch, dbusRemoveWatch, dbusToggleWatch, hw]

/-- C9 counterexample: the source compares the decoded property name and
value with `strncmp` against `"Powered"` / `"true"`, a leading-segment
comparison; the property name `"PoweredX"` is not the power-state property
`"Powered"`, yet the branch refreshes the cached adapter path. -/
theorem adapterPropertyChanged_exact_match_cex :
    ("PoweredX" ≠ "Powered") ∧
    (handleAdapterPropertyChanged (some ["PoweredX", "true"])
      (some "/org/bluez/hci0") (some "/org/bluez/hci1")).refreshed = true ∧
    (handleAdapterPropertyChanged (some ["PoweredX", "true"])
      (some "/org/bluez/hci0") (some "/org/bluez/hci1")).adapter =
      some "/org/bluez/hci1" := by
  refine ⟨by decide, by decide, by decide⟩

/-- C9 (amended): for every decoded property array, the callback is
invoked and the message handled; the cached adapter path is refreshed via
the synchronous lookup exactly when the property name has `"Powered"` as
its leading characters and the value has `"true"` as its leading
characters (the source's `strncmp` comparisons), and is left unchanged
otherwise. -/
theorem adapterPropertyChanged_refresh_spec (arr : List String)
    (adapter lookupResult : Option String) :
    (handleAdapterPropertyChanged (some arr) adapter lookupResult).callbackInvoked
      = true ∧
    (handleAdapterPropertyChanged (some arr) adapter lookupResult).handled = true ∧
    (handleAdapterPropertyChanged (some arr) adapter lookupResult).refreshed =
      (strncmpZero (arr.getD 0 "") "Powered" && strncmpZero (arr.getD 1 "") "true") ∧
    (handleAdapterPropertyChanged (some arr) adapter lookupResult).adapter =
      (if strncmpZero (arr.getD 0 "") "Powered" && strncmpZero (arr.getD 1 "") "true"
        then lookupResult else adapter) := by
  cases hA : strncmpZero (arr.getD 0 "") "Powered" <;>
    cases hB : strncmpZero (arr.getD 1 "") "true" <;>
      simp only [handleAdapterPropertyChanged, hA, hB] <;> simp

/-! ## List helpers for the Watch Set proofs -/

theorem list_set_getD_self {α : Type _} (l : List α) (i : Nat) (d : α) :
    l.set i (l.getD i d) = l := by
  induction l generalizing i with
  | nil => rfl
  | cons a t ih =>
      cases i with
      | zero => rfl
      | succ n => simpa using ih n

theorem list_zip_set {α β : Type _} (a : List α) (b : List β) (i : Nat)
    (x : α) (y : β) :
    (a.set i x).zip (b.set i y) = (a.zip b).set i (x, y) := by
  induction a generalizing b i with
  | nil => simp
  | cons ah ta ih =>
      cases b with
      | nil => simp
      | cons bh tb =>
          cases i with
          | zero => simp
          | succ n => simpa using ih tb n

theorem list_zip_take {α β : Type _} (a : List α) (b : List β) (k : Nat) :
    (a.take k).zip (b.take k) = (a.zip b).take k := by
  induction a generalizing b k with
  | nil => simp
  | cons ah ta ih =>
      cases b with
      | nil => simp
      | cons bh tb =>
          cases k with
          | zero => simp
          | succ n => simpa using ih tb n

theorem list_map_eraseIdx {α β : Type _} (f : α → β) (l : List α) (i : Nat) :
    (l.eraseIdx i).map f = (l.map f).eraseIdx i := by
  induction l generalizing i with
  | nil => rfl
  | cons a t ih =>
      cases i with
      | zero => rfl
      | succ n => simpa using ih n

theorem list_set_last_take_perm {α : Type _} (l : List α) (d : α) (y : Nat)
    (hy : y < l.length) :
    ((l.set y (l.getD (l.length - 1) d)).take (l.length - 1)).Perm
      (l.eraseIdx y) := by
  rcases Nat.lt_or_ge y (l.length - 1) with hlt | hge
  · have hv : l.getD (l.length - 1) d = l.get ⟨l.length - 1, by omega⟩ := by
      rw [List.getD_eq_getElem l d (by omega)]
      simp
    rw [hv, List.set_eq_take_cons_drop _ hy]
    rw [List.take_append_eq_append_take]
    have hyl : (List.take y l).length = y := by
      simp [List.length_take]
      omega
    rw [hyl]
    rw [List.take_of_length_le (by omega : (List.take y l).length ≤ l.length - 1)]
    have hsplit : l.length - 1 - y = (l.length - 2 - y) + 1 := by omega
    rw [hsplit, List.take_succ_cons]
    have hBlen : (List.drop (y + 1) l).length = l.length - (y + 1) :=
      List.length_drop _ _
    have hdl : List.take (l.length - 2 - y) (List.drop (y + 1) l) =
        (List.drop (y + 1) l).dropLast := by
      rw [List.dropLast_eq_take, hBlen]
      congr 1
      omega
    rw [hdl]
    rw [List.eraseIdx_eq_take_drop_succ]
    refine List.Perm.append_left _ ?_
    have hBne : List.drop (y + 1) l ≠ [] := by
      intro hB
      have := congrArg List.length hB
      simp [List.length_drop] at this
      omega
    have hlast : (List.drop (y + 1) l).getLast hBne =
        l.get ⟨l.length - 1, by omega⟩ := by
      rw [List.getLast_eq_getElem]
      simp only [List.getElem_drop]
      congr 1
      rw [hBlen]
      omega
    conv_rhs => rw [← List.dropLast_append_getLast hBne]
    rw [hlast]
    exact (List.perm_append_singleton _ _).symm
  · have hy' : y = l.length - 1 := by omega
    subst hy'
    rw [list_set_getD_self]
    rw [List.eraseIdx_eq_take_drop_succ]
    have h1 : l.length - 1 + 1 = l.length := by omega
    rw [h1, List.drop_length, List.append_nil]

theorem findMatch_isSome_iff (fd : Int) (ev : Nat) (l : List PollFd) :
    (findMatch fd ev l).isSome = true ↔
      (fd, ev) ∈ l.map (fun p => (p.fd, p.events)) := by
  induction l with
  | nil => simp [findMatch]
  | cons p ps ih =>
      by_cases h : p.fd = fd ∧ p.events = ev
      · simp [findMatch, h, h.1, h.2]
      · simp only [findMatch, if_neg h, List.map_cons, List.mem_cons]
        rw [Option.isSome_map']
        constructor
        · intro hs
          exact Or.inr (ih.mp hs)
        · intro hs
          rcases hs with heq | hmem
          · have h1 : fd = p.fd := congrArg Prod.fst heq
            have h2 : ev = p.events := congrArg Prod.snd heq
            exact absurd ⟨h1.symm, h2.symm⟩ h
          · exact ih.mpr hmem

theorem findMatch_some_lt (fd : Int) (ev : Nat) (l : List PollFd) (y : Nat)
    (h : findMatch fd ev l = some y) : y < l.length := by
  induction l generalizing y with
  | nil => simp [findMatch] at h
  | cons p ps ih =>
      by_cases hp : p.fd = fd ∧ p.events = ev
      · simp only [findMatch, if_pos hp, Option.some.injEq] at h
        simp [← h]
      · simp only [findMatch, if_neg hp, Option.map_eq_some'] at h
        obtain ⟨z, hz, hzy⟩ := h
        have := ih z hz
        simp only [List.length_cons]
        omega

theorem livePairs_appendWatchEntry (s : WatchState) (fd : Int) (ev w : Nat)
    (hlen : s.pollMemberCount < s.pollData.length) :
    livePairs (appendWatchEntry s fd ev w) = livePairs s ++ [(fd, ev)] := by
  unfold livePairs appendWatchEntry
  simp only [List.set_take]
  rw [List.take_succ]
  rw [List.getElem?_eq_getElem hlen]
  simp only [Option.toList_some]
  rw [List.set_append]
  have hl : (List.take s.pollMemberCount s.pollData).length = s.pollMemberCount := by
    simp [List.length_take]
    omega
  rw [if_neg (by omega : ¬ s.pollMemberCount <
    (List.take s.pollMemberCount s.pollData).length)]
  rw [hl]
  simp

theorem livePairs_take_grow (s : WatchState)
    (hlen : s.pollMemberCount ≤ s.pollData.length) (z : PollFd) :
    ((s.pollData.take s.pollMemberCount ++ [z]).take s.pollMemberCount).map
        (fun p => (p.fd, p.events)) = livePairs s := by
  unfold livePairs
  rw [List.take_append_of_le_length (by simp [List.length_take]; omega)]
  rw [List.take_take]
  simp

theorem handleWatchAdd_alloc_fail_parts (s : WatchState) (hWF : s.WF)
    (a1 a2 : Bool) (fd : Int) (flags : Nat) (w : Nat)
    (hgrow : s.pollMemberCount = s.pollDataSize)
    (hfail : a1 = false ∨ a2 = false) :
    (handleWatchAdd a1 a2 fd flags w s).pollMemberCount = s.pollMemberCount ∧
    livePairs (handleWatchAdd a1 a2 fd flags w s) = livePairs s := by
  obtain ⟨h1, h2, h3⟩ := hWF
  by_cases hdup : (findMatch fd (watchFlagsToEvents flags)
      (s.pollData.take s.pollMemberCount)).isSome = true
  · simp [handleWatchAdd, hdup]
  · have hdup' : (findMatch fd (watchFlagsToEvents flags)
        (s.pollData.take s.pollMemberCount)).isSome = false := by
      simpa using hdup
    cases a1 with
    | false =>
        simp only [handleWatchAdd, hdup', Bool.false_eq_true, if_false]
        rw [if_pos hgrow]
        simp
    | true =>
        have ha2 : a2 = false := by
          rcases hfail with hf | hf
          · exact absurd hf (by simp)
          · exact hf
        subst ha2
        simp only [handleWatchAdd, hdup', Bool.false_eq_true, if_false]
        rw [if_pos hgrow]
        simp only [eq_self_iff_true, if_true]
        refine ⟨rfl, ?_⟩
        exact livePairs_take_grow s (by omega) _

theorem livePairs_eq_map_liveEntries (t : WatchState)
    (_ht1 : t.pollMemberCount ≤ t.pollData.length)
    (ht2 : t.pollMemberCount ≤ t.watchData.length) :
    livePairs t = (liveEntries t).map (fun e => (e.1.fd, e.1.events)) := by
  unfold livePairs liveEntries
  have hfst : List.map Prod.fst
      ((t.pollData.take t.pollMemberCount).zip
        (t.watchData.take t.pollMemberCount)) =
      t.pollData.take t.pollMemberCount := by
    apply List.map_fst_zip
    simp [List.length_take]
    omega
  calc (t.pollData.take t.pollMemberCount).map (fun p => (p.fd, p.events)) =
      (List.map Prod.fst
        ((t.pollData.take t.pollMemberCount).zip
          (t.watchData.take t.pollMemberCount))).map
        (fun p => (p.fd, p.events)) := by rw [hfst]
    _ = ((t.pollData.take t.pollMemberCount).zip
          (t.watchData.take t.pollMemberCount)).map
        (fun e => (e.1.fd, e.1.events)) := by
      rw [List.map_map]
      rfl

theorem handleWatchRemove_found_parts (s : WatchState) (hWF : s.WF)
    (fd : Int) (flags : Nat) (y : Nat)
    (h : findMatch fd (watchFlagsToEvents flags)
      (s.pollData.take s.pollMemberCount) = some y) :
    (handleWatchRemove fd flags s).2 = false ∧
    (handleWatchRemove fd flags s).1.pollMemberCount = s.pollMemberCount - 1 ∧
    (liveEntries (handleWatchRemove fd flags s).1).Perm
      ((liveEntries s).eraseIdx y) ∧
    (livePairs (handleWatchRemove fd flags s).1).Perm
      ((livePairs s).eraseIdx y) ∧
    (handleWatchRemove fd flags s).1.WF := by
  obtain ⟨h1, h2, h3⟩ := hWF
  have hlt := findMatch_some_lt _ _ _ _ h
  rw [List.length_take] at hlt
  have hyn : y < s.pollMemberCount := lt_of_lt_of_le hlt (min_le_left _ _)
  have hLlen : (liveEntries s).length = s.pollMemberCount := by
    simp [liveEntries, List.length_zip, List.length_take]
    omega
  have hperm := list_set_last_take_perm (liveEntries s)
    ({ fd := 0, events := 0, revents := 0 }, 0) y (by rw [hLlen]; exact hyn)
  rw [hLlen] at hperm
  have hvpair : (liveEntries s).getD (s.pollMemberCount - 1)
      ({ fd := 0, events := 0, revents := 0 }, 0) =
      (s.pollData.getD (s.pollMemberCount - 1)
          { fd := 0, events := 0, revents := 0 },
        s.watchData.getD (s.pollMemberCount - 1) 0) := by
    have hn1 : s.pollMemberCount - 1 < (liveEntries s).length := by
      rw [hLlen]
      omega
    rw [List.getD_eq_getElem _ _ hn1]
    rw [List.getD_eq_getElem _ _ (by omega : s.pollMemberCount - 1 < s.pollData.length)]
    rw [List.getD_eq_getElem _ _ (by omega : s.pollMemberCount - 1 < s.watchData.length)]
    simp [liveEntries, List.getElem_zip, List.getElem_take]
  have hEq : liveEntries (handleWatchRemove fd flags s).1 =
      ((liveEntries s).set y ((liveEntries s).getD (s.pollMemberCount - 1)
        ({ fd := 0, events := 0, revents := 0 }, 0))).take (s.pollMemberCount - 1) := by
    rw [hvpair]
    simp only [handleWatchRemove, h]
    unfold liveEntries
    simp only [List.set_take, list_zip_set, list_zip_take]
    rw [List.take_take]
    have hmin : List.take ((s.pollMemberCount - 1) ⊓ s.pollMemberCount)
        (s.pollData.zip s.watchData) =
        List.take (s.pollMemberCount - 1) (s.pollData.zip s.watchData) := by
      congr 1
      omega
    rw [hmin]
  have hperm' : (liveEntries (handleWatchRemove fd flags s).1).Perm
      ((liveEntries s).eraseIdx y) := by
    rw [hEq]
    exact hperm
  have hcount : (handleWatchRemove fd flags s).1.pollMemberCount =
      s.pollMemberCount - 1 := by
    simp only [handleWatchRemove, h]
  have hWF' : (handleWatchRemove fd flags s).1.WF := by
    simp only [handleWatchRemove, h, WatchState.WF, List.length_set]
    refine ⟨by omega, h2, h3⟩
  have hpairs : (livePairs (handleWatchRemove fd flags s).1).Perm
      ((livePairs s).eraseIdx y) := by
    rw [livePairs_eq_map_liveEntries s (by omega) (by omega)]
    rw [livePairs_eq_map_liveEntries (handleWatchRemove fd flags s).1 ?hp1 ?hp2]
    case hp1 =>
      simp only [handleWatchRemove, h, List.length_set]
      omega
    case hp2 =>
      simp only [handleWatchRemove, h, List.length_set]
      omega
    rw [← list_map_eraseIdx]
    exact hperm'.map _
  refine ⟨by simp only [handleWatchRemove, h], hcount, hperm', hpairs, hWF'⟩

theorem handleWatchAdd_of_dup (a1 a2 : Bool) (fd : Int) (flags : Nat)
    (w : Nat) (s : WatchState)
    (h : (findMatch fd (watchFlagsToEvents flags)
      (s.pollData.take s.pollMemberCount)).isSome = true) :
    handleWatchAdd a1 a2 fd flags w s = s := by
  simp [handleWatchAdd, h]

theorem handleWatchRemove_of_absent (fd : Int) (flags : Nat) (s : WatchState)
    (h : findMatch fd (watchFlagsToEvents flags)
      (s.pollData.take s.pollMemberCount) = none) :
    handleWatchRemove fd flags s = (s, true) := by
  simp [handleWatchRemove, h]

theorem livePairs_mem_iff_findMatch (fd : Int) (ev : Nat) (s : WatchState) :
    (fd, ev) ∈ livePairs s ↔
      (findMatch fd ev (s.pollData.take s.pollMemberCount)).isSome = true :=
  (findMatch_isSome_iff fd ev (s.pollData.take s.pollMemberCount)).symm

theorem handleWatchAdd_livePairs_cases (a1 a2 : Bool) (fd : Int)
    (flags : Nat) (w : Nat) (s : WatchState) (hWF : s.WF) :
    (livePairs (handleWatchAdd a1 a2 fd flags w s) = livePairs s) ∨
    (((fd, watchFlagsToEvents flags) ∉ livePairs s) ∧
      livePairs (handleWatchAdd a1 a2 fd flags w s) =
        livePairs s ++ [(fd, watchFlagsToEvents flags)]) := by
  obtain ⟨h1, h2, h3⟩ := hWF
  by_cases hdup : (findMatch fd (watchFlagsToEvents flags)
      (s.pollData.take s.pollMemberCount)).isSome = true
  · left
    rw [handleWatchAdd_of_dup a1 a2 fd flags w s hdup]
  · have hdup' : (findMatch fd (watchFlagsToEvents flags)
        (s.pollData.take s.pollMemberCount)).isSome = false := by
      simpa using hdup
    have hnotmem : (fd, watchFlagsToEvents flags) ∉ livePairs s := by
      rw [livePairs_mem_iff_findMatch]
      simp [hdup']
    by_cases hgrow : s.pollMemberCount = s.pollDataSize
    · cases a1 with
      | false =>
          left
          exact (handleWatchAdd_alloc_fail_parts s ⟨h1, h2, h3⟩ false a2 fd flags w
            hgrow (Or.inl rfl)).2
      | true =>
          cases a2 with
          | false =>
              left
              exact (handleWatchAdd_alloc_fail_parts s ⟨h1, h2, h3⟩ true false fd
                flags w hgrow (Or.inr rfl)).2
          | true =>
              right
              refine ⟨hnotmem, ?_⟩
              simp only [handleWatchAdd, hdup', Bool.false_eq_true, if_false]
              rw [if_pos hgrow]
              simp only [Bool.true_eq_false, if_false, eq_self_iff_true, if_true]
              rw [livePairs_appendWatchEntry _ _ _ _ (by
                simp [List.length_take]
                omega)]
              congr 1
              exact livePairs_take_grow s (by omega) _
    · right
      refine ⟨hnotmem, ?_⟩
      simp only [handleWatchAdd, hdup', Bool.false_eq_true, if_false]
      rw [if_neg hgrow]
      exact livePairs_appendWatchEntry s fd _ w (by omega)

theorem handleWatchAdd_nogrow_eq (a1 a2 : Bool) (fd : Int) (flags : Nat)
    (w : Nat) (s : WatchState)
    (hdup : (findMatch fd (watchFlagsToEvents flags)
      (s.pollData.take s.pollMemberCount)).isSome = false)
    (hgrow : s.pollMemberCount ≠ s.pollDataSize) :
    handleWatchAdd a1 a2 fd flags w s =
      appendWatchEntry s fd (watchFlagsToEvents flags) w := by
  simp only [handleWatchAdd, hdup, Bool.false_eq_true, if_false]
  rw [if_neg hgrow]

theorem handleWatchAdd_grow_ok_eq (fd : Int) (flags : Nat) (w : Nat)
    (s : WatchState)
    (hdup : (findMatch fd (watchFlagsToEvents flags)
      (s.pollData.take s.pollMemberCount)).isSome = false)
    (hgrow : s.pollMemberCount = s.pollDataSize) :
    handleWatchAdd true true fd flags w s =
      appendWatchEntry
        { s with
          pollData := s.pollData.take s.pollMemberCount ++
            [{ fd := 0, events := 0, revents := 0 }],
          watchData := s.watchData.take s.pollMemberCount ++ [0],
          pollDataSize := s.pollDataSize + 1 }
        fd (watchFlagsToEvents flags) w := by
  simp only [handleWatchAdd, hdup, Bool.false_eq_true, if_false]
  rw [if_pos hgrow]
  simp only [Bool.true_eq_false, if_false, eq_self_iff_true, if_true]

theorem handleWatchAdd_WF (a1 a2 : Bool) (fd : Int) (flags : Nat) (w : Nat)
    (s : WatchState) (hWF : s.WF) :
    (handleWatchAdd a1 a2 fd flags w s).WF := by
  obtain ⟨h1, h2, h3⟩ := hWF
  by_cases hdup : (findMatch fd (watchFlagsToEvents flags)
      (s.pollData.take s.pollMemberCount)).isSome = true
  · rw [handleWatchAdd_of_dup a1 a2 fd flags w s hdup]
    exact ⟨h1, h2, h3⟩
  · have hdup' : (findMatch fd (watchFlagsToEvents flags)
        (s.pollData.take s.pollMemberCount)).isSome = false := by
      simpa using hdup
    by_cases hgrow : s.pollMemberCount = s.pollDataSize
    · cases a1 with
      | false =>
          simp only [handleWatchAdd, hdup', Bool.false_eq_true, if_false]
          rw [if_pos hgrow]
          simp only [eq_self_iff_true, if_true]
          exact ⟨h1, h2, h3⟩
      | true =>
          cases a2 with
          | false =>
              simp only [handleWatchAdd, hdup', Bool.false_eq_true, if_false]
              rw [if_pos hgrow]
              simp only [Bool.true_eq_false, if_false, eq_self_iff_true, if_true]
              refine ⟨h1, ?_, h3⟩
              simp [List.length_take]
              omega
          | true =>
              rw [handleWatchAdd_grow_ok_eq fd flags w s hdup' hgrow]
              simp only [appendWatchEntry, WatchState.WF, List.length_set,
                List.length_append, List.length_take, List.length_singleton]
              refine ⟨by omega, by omega, by omega⟩
    · rw [handleWatchAdd_nogrow_eq a1 a2 fd flags w s hdup' hgrow]
      simp only [appendWatchEntry, WatchState.WF, List.length_set]
      refine ⟨by omega, by omega, by omega⟩

theorem handleWatchAdd_nodup (a1 a2 : Bool) (fd : Int) (flags : Nat)
    (w : Nat) (s : WatchState) (hWF : s.WF)
    (hnd : (livePairs s).Nodup) :
    (livePairs (handleWatchAdd a1 a2 fd flags w s)).Nodup := by
  rcases handleWatchAdd_livePairs_cases a1 a2 fd flags w s hWF with he | ⟨hnm, he⟩
  · rw [he]
    exact hnd
  · rw [he, List.nodup_append]
    refine ⟨hnd, List.nodup_singleton _, ?_⟩
    intro x hx hx'
    simp only [List.mem_singleton] at hx'
    subst hx'
    exact hnm hx

theorem handleWatchRemove_nodup (fd : Int) (flags : Nat) (s : WatchState)
    (hWF : s.WF) (hnd : (livePairs s).Nodup) :
    (livePairs (handleWatchRemove fd flags s).1).Nodup := by
  cases h : findMatch fd (watchFlagsToEvents flags)
      (s.pollData.take s.pollMemberCount) with
  | none =>
      rw [handleWatchRemove_of_absent fd flags s h]
      exact hnd
  | some y =>
      have hp := (handleWatchRemove_found_parts s hWF fd flags y h).2.2.2.1
      exact hp.symm.nodup (((livePairs s).eraseIdx_sublist y).nodup hnd)

theorem handleWatchRemove_WF (fd : Int) (flags : Nat) (s : WatchState)
    (hWF : s.WF) : (handleWatchRemove fd flags s).1.WF := by
  cases h : findMatch fd (watchFlagsToEvents flags)
      (s.pollData.take s.pollMemberCount) with
  | none =>
      rw [handleWatchRemove_of_absent fd flags s h]
      exact hWF
  | some y =>
      exact (handleWatchRemove_found_parts s hWF fd flags y h).2.2.2.2

theorem applyWatchMutation_inv (s : WatchState) (m : WatchMutation)
    (hWF : s.WF) (hnd : (livePairs s).Nodup) :
    (applyWatchMutation s m).WF ∧ (livePairs (applyWatchMutation s m)).Nodup := by
  cases m with
  | add a1 a2 fd flags h =>
      exact ⟨handleWatchAdd_WF a1 a2 fd flags h s hWF,
        handleWatchAdd_nodup a1 a2 fd flags h s hWF hnd⟩
  | remove fd flags =>
      exact ⟨handleWatchRemove_WF fd flags s hWF,
        handleWatchRemove_nodup fd flags s hWF hnd⟩

theorem applyWatchMutations_inv (ms : List WatchMutation) (s : WatchState)
    (hWF : s.WF) (hnd : (livePairs s).Nodup) :
    (applyWatchMutations s ms).WF ∧
      (livePairs (applyWatchMutations s ms)).Nodup := by
  induction ms generalizing s with
  | nil => exact ⟨hWF, hnd⟩
  | cons m ms ih =>
      have h := applyWatchMutation_inv s m hWF hnd
      exact ih (applyWatchMutation s m) h.1 h.2

/-- C1: across any sequence of watch mutations from a well-formed Watch
Set with distinct (descriptor, events) pairs, the live pairs stay
pairwise distinct; adding a pair already present returns the state
untouched (duplicate-add is a no-op); and any add leaves the live pairs
either unchanged or extended by exactly the one new pair. -/
theorem watchSet_no_duplicate_pairs (s : WatchState) (hWF : s.WF)
    (hnd : (livePairs s).Nodup) :
    (∀ ms : List WatchMutation,
      (livePairs (applyWatchMutations s ms)).Nodup) ∧
    (∀ a1 a2 fd flags w, (fd, watchFlagsToEvents flags) ∈ livePairs s →
      handleWatchAdd a1 a2 fd flags w s = s) ∧
    (∀ a1 a2 fd flags w,
      livePairs (handleWatchAdd a1 a2 fd flags w s) = livePairs s ∨
      livePairs (handleWatchAdd a1 a2 fd flags w s) =
        livePairs s ++ [(fd, watchFlagsToEvents flags)]) := by
  refine ⟨?_, ?_, ?_⟩
  · intro ms
    exact (applyWatchMutations_inv ms s hWF hnd).2
  · intro a1 a2 fd flags w hmem
    exact handleWatchAdd_of_dup a1 a2 fd flags w s
      ((livePairs_mem_iff_findMatch fd _ s).mp hmem)
  · intro a1 a2 fd flags w
    rcases handleWatchAdd_livePairs_cases a1 a2 fd flags w s hWF with he | ⟨_, he⟩
    · exact Or.inl he
    · exact Or.inr he

/-- C1 witness: a duplicate add and a remove applied to the demo state
keep the live pairs duplicate-free. -/
theorem watchSet_no_duplicate_pairs_witness :
    (livePairs (applyWatchMutations demoWatchState
      [WatchMutation.add true true 4 1 9,
       WatchMutation.add true true 4 1 9,
       WatchMutation.remove 3 1])).Nodup :=
  (watchSet_no_duplicate_pairs demoWatchState (by decide) (by decide)).1 _

/-- C6: removing a (descriptor, flags) pair whose translated events are
absent from the Watch Set is an exact no-op that only logs a warning;
removing a present pair is reported without warning, decrements the live
count by one, and leaves live (pollfd, watch-handle) entries that are a
permutation of the old entries with the first matching entry erased
(swap-with-last removal). -/
theorem handleWatchRemove_spec (s : WatchState) (hWF : s.WF) (fd : Int)
    (flags : Nat) :
    ((fd, watchFlagsToEvents flags) ∉ livePairs s →
      handleWatchRemove fd flags s = (s, true)) ∧
    (∀ y, findMatch fd (watchFlagsToEvents flags)
        (s.pollData.take s.pollMemberCount) = some y →
      (handleWatchRemove fd flags s).2 = false ∧
      (handleWatchRemove fd flags s).1.pollMemberCount =
        s.pollMemberCount - 1 ∧
      (liveEntries (handleWatchRemove fd flags s).1).Perm
        ((liveEntries s).eraseIdx y)) := by
  constructor
  · intro hnm
    cases h : findMatch fd (watchFlagsToEvents flags)
        (s.pollData.take s.pollMemberCount) with
    | none => exact handleWatchRemove_of_absent fd flags s h
    | some y =>
        exact absurd ((livePairs_mem_iff_findMatch fd _ s).mpr (by simp [h])) hnm
  · intro y hy
    have hp := handleWatchRemove_found_parts s hWF fd flags y hy
    exact ⟨hp.1, hp.2.1, hp.2.2.1⟩

/-- C6 witness: removing the present pair (3, READABLE) from the demo
state removes exactly that entry; removing it again is a warned no-op is
covered by the first conjunct through the spec theorem applied here. -/
theorem handleWatchRemove_spec_witness :
    ((handleWatchRemove 3 1 demoWatchState).2 = false ∧
      (handleWatchRemove 3 1 demoWatchState).1.pollMemberCount = 0 ∧
      (liveEntries (handleWatchRemove 3 1 demoWatchState).1).Perm
        ((liveEntries demoWatchState).eraseIdx 0)) ∧
    handleWatchRemove 99 1 demoWatchState = (demoWatchState, true) :=
  ⟨(handleWatchRemove_spec demoWatchState (by decide) 3 1).2 0 (by decide),
    (handleWatchRemove_spec demoWatchState (by decide) 99 1).1 (by decide)⟩

/-- C7: when the Watch Set is at capacity and either growth allocation
fails, `handleWatchAdd` aborts leaving the live member count and the live
(descriptor, events) pairs exactly as they were. -/
theorem handleWatchAdd_alloc_fail_spec (s : WatchState) (hWF : s.WF)
    (a1 a2 : Bool) (fd : Int) (flags : Nat) (w : Nat)
    (hgrow : s.pollMemberCount = s.pollDataSize)
    (hfail : a1 = false ∨ a2 = false) :
    (handleWatchAdd a1 a2 fd flags w s).pollMemberCount = s.pollMemberCount ∧
    livePairs (handleWatchAdd a1 a2 fd flags w s) = livePairs s :=
  handleWatchAdd_alloc_fail_parts s hWF a1 a2 fd flags w hgrow hfail

/-- C7 witness: a failed first allocation on the full demo state leaves
it observably unchanged. -/
theorem handleWatchAdd_alloc_fail_witness :
    (handleWatchAdd false true 4 1 9 fullWatchState).pollMemberCount =
      fullWatchState.pollMemberCount ∧
    livePairs (handleWatchAdd false true 4 1 9 fullWatchState) =
      livePairs fullWatchState :=
  handleWatchAdd_alloc_fail_spec fullWatchState (by decide) false true 4 1 9
    rfl (Or.inl rfl)
